import Mathlib

/-!
Shallow embedding of the calendar-tool layer of the
`vercel-google-calendar-mcp` repository
(`src/lib/calendarTools/{events,freebusy,calendars,types}.ts`).

Conventions of the embedding:
* TypeScript optional values (`string | undefined`) become `Option String`;
  JavaScript truthiness of such a value (`if (x) ...`) is `truthyStr`.
* Host primitives (`new Date(s)`, `Date.prototype.toISOString`) are modelled
  by `jsDateParse` / `msToIso` on the RFC3339 UTC subset the tools exchange;
  an unparseable string is `none`, standing for an Invalid Date (`NaN`),
  and every JS comparison involving `NaN` is `false`, as in ECMAScript.
* Handlers are modelled as pure functions that additionally take the
  provider (`Provider`, a record of oracle functions standing for the Google
  Calendar client) and return, next to their result, the ordered list of
  provider calls they issued (`List ProviderCall`).  A thrown JS `Error`
  becomes `Except.error`.
-/

set_option maxRecDepth 8192

namespace GCalMcp

/-- JS truthiness of an optional string: `undefined` and `""` are falsy. -/
def truthyStr : Option String → Bool
  | some s => !(s == "")
  | none => false

/-- JS `a || b` where `a` is an optional string and `b` a plain string. -/
def jsOrStr (a : Option String) (b : String) : String :=
  if truthyStr a then a.getD "" else b

/-- JS `a || b` on two optional strings (`a` if truthy, otherwise `b`). -/
def jsOrOpt (a b : Option String) : Option String :=
  if truthyStr a then a else b

/-- Rendering of an optional string inside a JS template literal:
`undefined` prints as the string `"undefined"`. -/
def jsShowUndef : Option String → String
  | some s => s
  | none => "undefined"

/-! ### The host date model

`new Date(s)` / `toISOString` restricted to RFC3339 UTC timestamps
(`YYYY-MM-DDTHH:MM:SS) (.mmm)? Z`, years 1970–9999), which is the format the
tools produce and document for their inputs.  Instants are milliseconds
since the Unix epoch, as `Nat`. -/

def isLeapYear (y : Nat) : Bool :=
  (y % 4 == 0 && y % 100 != 0) || y % 400 == 0

def daysInYear (y : Nat) : Nat := if isLeapYear y then 366 else 365

def monthLengths (leap : Bool) : List Nat :=
  [31, if leap then 29 else 28, 31, 30, 31, 30, 31, 31, 30, 31, 30, 31]

/-- Length of month `m` (1-based) in year `y`; `0` when `m` is out of range. -/
def monthLength (y m : Nat) : Nat :=
  ((monthLengths (isLeapYear y)).drop (m - 1)).headD 0

/-- Days from 1970-01-01 to the first day of year `y`. -/
def daysBeforeYear (y : Nat) : Nat :=
  (List.range (y - 1970)).foldl (fun acc i => acc + daysInYear (1970 + i)) 0

/-- Days from the first day of year `y` to the first day of its month `m`. -/
def daysBeforeMonth (y m : Nat) : Nat :=
  ((monthLengths (isLeapYear y)).take (m - 1)).foldl (· + ·) 0

/-- Worker for `jsSplitOnChar`, structurally recursive on the characters. -/
def splitOnCharAux (c : Char) : List Char → List Char → List String
  | [], cur => [String.mk cur.reverse]
  | ch :: rest, cur =>
    if ch == c then String.mk cur.reverse :: splitOnCharAux c rest []
    else splitOnCharAux c rest (ch :: cur)

/-- JS `s.split(sep)` for a one-character separator: every maximal
separator-free segment, including empty ones (`"".split(",") == [""]`). -/
def jsSplitOnChar (c : Char) (s : String) : List String :=
  splitOnCharAux c s.toList []

/-- JS `s.trim()` (on the ASCII whitespace the tools exchange). -/
def jsTrim (s : String) : String :=
  String.mk
    (((s.toList.dropWhile (fun c => c.isWhitespace)).reverse.dropWhile
      (fun c => c.isWhitespace)).reverse)

/-- A `Nat` from a non-empty all-digit character list. -/
def digitCharsToNat? (cs : List Char) : Option Nat :=
  if cs ≠ [] ∧ cs.all (fun c => c.isDigit) then
    some (cs.foldl (fun n c => n * 10 + (c.toNat - 48)) 0)
  else none

/-- A `Nat` from a digit string of exactly `w` characters. -/
def fixedDigits (w : Nat) (s : String) : Option Nat :=
  if s.toList.length = w then digitCharsToNat? s.toList else none

/-- Time-of-day part `HH:MM:SS(.mmm)?Z` to milliseconds into the day. -/
def parseTimeOfDay (t : String) : Option Nat :=
  if t.toList.getLast? == some 'Z' then
    match jsSplitOnChar ':' (String.mk t.toList.dropLast) with
    | [hs, mins, ss] =>
      let secParts := jsSplitOnChar '.' ss
      match secParts with
      | [sec] =>
        match fixedDigits 2 hs, fixedDigits 2 mins, fixedDigits 2 sec with
        | some h, some mi, some s =>
          if h ≤ 23 ∧ mi ≤ 59 ∧ s ≤ 59 then
            some (((h * 60 + mi) * 60 + s) * 1000)
          else none
        | _, _, _ => none
      | [sec, mil] =>
        match fixedDigits 2 hs, fixedDigits 2 mins, fixedDigits 2 sec,
            fixedDigits 3 mil with
        | some h, some mi, some s, some ms =>
          if h ≤ 23 ∧ mi ≤ 59 ∧ s ≤ 59 then
            some ((((h * 60 + mi) * 60 + s) * 1000) + ms)
          else none
        | _, _, _, _ => none
      | _ => none
    | _ => none
  else none

/-- `new Date(s).getTime()` on the modelled subset; `none` is an Invalid
Date (`NaN`). -/
def jsDateParse (s : String) : Option Nat :=
  match jsSplitOnChar 'T' s with
  | [d, t] =>
    match jsSplitOnChar '-' d with
    | [ys, ms, ds] =>
      match fixedDigits 4 ys, fixedDigits 2 ms, fixedDigits 2 ds with
      | some y, some m, some dd =>
        if 1970 ≤ y ∧ 1 ≤ m ∧ m ≤ 12 ∧ 1 ≤ dd ∧ dd ≤ monthLength y m then
          match parseTimeOfDay t with
          | some msOfDay =>
            some ((daysBeforeYear y + daysBeforeMonth y m + (dd - 1)) *
              86400000 + msOfDay)
          | none => none
        else none
      | _, _, _ => none
    | _ => none
  | _ => none

/-- JS `new Date(a) < new Date(b)`: `false` whenever either side is an
Invalid Date, exactly as `NaN` comparisons behave. -/
def jsDateLt (a b : String) : Bool :=
  match jsDateParse a, jsDateParse b with
  | some x, some y => decide (x < y)
  | _, _ => false

/-- JS `new Date(b).getTime() - new Date(a).getTime() <= bound`: `false`
whenever either side is an Invalid Date. -/
def jsDiffLe (a b : String) (bound : Int) : Bool :=
  match jsDateParse a, jsDateParse b with
  | some s, some e => decide ((e : Int) - (s : Int) ≤ bound)
  | _, _ => false

def padDigits (w n : Nat) : String :=
  let s := toString n
  (String.mk (List.replicate (w - s.length) '0')) ++ s

/-- Structural worker for `yearFromDays`: each step consumes at least 365
days, so `d / 365 + 1` steps of fuel always suffice. -/
def yearFromDaysAux : Nat → Nat → Nat → Nat × Nat
  | 0, y, d => (y, d)
  | fuel + 1, y, d =>
    if d < daysInYear y then (y, d)
    else yearFromDaysAux fuel (y + 1) (d - daysInYear y)

/-- Split a day count since 1970-01-01 into (year, day-of-year). -/
def yearFromDays (y d : Nat) : Nat × Nat :=
  yearFromDaysAux (d / 365 + 1) y d

/-- Split a 0-based day-of-year into (month, 0-based day-of-month). -/
def monthFromDoy (m : Nat) : List Nat → Nat → Nat × Nat
  | [], d => (m, d)
  | len :: rest, d => if d < len then (m, d) else monthFromDoy (m + 1) rest (d - len)

/-- `Date.prototype.toISOString` on a millisecond instant. -/
def msToIso (t : Nat) : String :=
  let ms := t % 1000
  let tsec := t / 1000
  let sec := tsec % 60
  let tmin := tsec / 60
  let minute := tmin % 60
  let thr := tmin / 60
  let hour := thr % 24
  let days := thr / 24
  let yd := yearFromDays 1970 days
  let md := monthFromDoy 1 (monthLengths (isLeapYear yd.1)) yd.2
  padDigits 4 yd.1 ++ "-" ++ padDigits 2 md.1 ++ "-" ++ padDigits 2 (md.2 + 1) ++
    "T" ++ padDigits 2 hour ++ ":" ++ padDigits 2 minute ++ ":" ++
    padDigits 2 sec ++ "." ++ padDigits 3 ms ++ "Z"

/-! ### Shared response envelope and data shapes (`types.ts`) -/

structure TextBlock where
  text : String
deriving Repr, DecidableEq

/-- `McpResponse<T>` from `types.ts`: a list of text blocks plus an optional
machine-readable payload.  The event tools in `events.ts` declare their own
`McpTextResponse` type which has no `data` property at all; we embed their
results in the same envelope with `data := none` throughout, making the
omission visible. -/
structure McpResponse (T : Type) where
  content : List TextBlock
  data : Option T
deriving Repr, DecidableEq

/-- A busy window reported by the provider.  The TS declaration promises
`string` fields, but the values are projected straight out of the loosely
typed API response, so either endpoint may be absent at runtime. -/
structure FreeBusyInterval where
  start : Option String
  «end» : Option String
deriving Repr, DecidableEq

structure CalendarFreeBusy where
  calendarId : String
  busy : List FreeBusyInterval
deriving Repr, DecidableEq

structure FreeBusyRange where
  start : String
  «end» : String
deriving Repr, DecidableEq

/-- The `data` payload of `get_freebusy`. -/
structure FreeBusyData where
  range : FreeBusyRange
  timeZone : String
  calendars : List CalendarFreeBusy
deriving Repr, DecidableEq

/-! ### Provider model (the Google Calendar client) -/

/-- A JS error thrown by the provider client: `code` and `message` are read
with optional chaining, so both may be absent. -/
structure ProviderError where
  code : Option Nat
  message : Option String
deriving Repr, DecidableEq

/-- `error?.message || "Unknown error occurred"` -/
def errorMsgOf (e : ProviderError) : String :=
  jsOrStr e.message "Unknown error occurred"

/-- `calendar.calendars.get` response body (`calRes.data`): only the
`timeZone` field is consumed. -/
structure CalendarMeta where
  timeZone : Option String
deriving Repr, DecidableEq

structure EventDateField where
  dateTime : Option String
  date : Option String
deriving Repr, DecidableEq

/-- An item of `calendar.events.list` responses, reduced to the fields the
tools read when formatting. -/
structure GEvent where
  id : Option String
  summary : Option String
  start : Option EventDateField
deriving Repr, DecidableEq

/-- Parameters of a `calendar.events.list` call. -/
structure EventsListQuery where
  calendarId : String
  q : Option String
  timeMin : Option String
  timeMax : Option String
  maxResults : Option Nat
  timeZone : String
deriving Repr, DecidableEq

structure EventTimeField where
  dateTime : String
  timeZone : Option String
deriving Repr, DecidableEq

/-- Request body of `calendar.events.insert`; attendees are kept as their
email strings (the source wraps each as `{ email }`). -/
structure InsertBody where
  summary : String
  description : Option String
  start : EventTimeField
  «end» : EventTimeField
  attendees : Option (List String)
deriving Repr, DecidableEq

/-- Request body of `calendar.events.patch`: only fields present in the
input are set. -/
structure PatchBody where
  summary : Option String
  description : Option String
  start : Option EventTimeField
  «end» : Option EventTimeField
  attendees : Option (List String)
deriving Repr, DecidableEq

/-- Response body of insert/patch, reduced to the fields the tools read. -/
structure EventWriteResult where
  id : Option String
  summary : Option String
  htmlLink : Option String
deriving Repr, DecidableEq

/-- One error entry of a freebusy calendar (`e.reason`). -/
structure FreeBusyErrorEntry where
  reason : Option String
deriving Repr, DecidableEq

/-- Per-calendar entry of `calendar.freebusy.query` responses. -/
structure FreeBusyCalInfo where
  errors : Option (List FreeBusyErrorEntry)
  busy : Option (List FreeBusyInterval)
deriving Repr, DecidableEq

/-- Request body of `calendar.freebusy.query` (items reduced to their ids). -/
structure FreeBusyRequest where
  timeMin : String
  timeMax : String
  timeZone : String
  items : List String
deriving Repr, DecidableEq

/-- One provider-client call, with the arguments the tool passed. -/
inductive ProviderCall
  | calendarsGet (calendarId : String)
  | eventsList (q : EventsListQuery)
  | eventsInsert (calendarId : String) (body : InsertBody)
  | eventsPatch (calendarId : String) (eventId : String) (body : PatchBody)
  | eventsDelete (calendarId : String) (eventId : String)
  | freebusyQuery (req : FreeBusyRequest)
deriving Repr, DecidableEq

/-- The provider as an oracle: what each client call would return.  The
freebusy response's `calendars` map is an association list; `res.data.items`
and `res.data.calendars` may be absent, hence the `Option` wrappers. -/
structure Provider where
  calendarsGet : String → Except ProviderError CalendarMeta
  eventsList : EventsListQuery → Except ProviderError (Option (List GEvent))
  eventsInsert : String → InsertBody → Except ProviderError EventWriteResult
  eventsPatch : String → String → PatchBody → Except ProviderError EventWriteResult
  eventsDelete : String → String → Except ProviderError Unit
  freebusyQuery : FreeBusyRequest →
    Except ProviderError (Option (List (String × FreeBusyCalInfo)))

/-! ### Tool inputs (the well-typed records behind the zod shapes)

Base field constraints of the object shapes (`min(1)`, `email()`,
`positive().max(2500)`) abort parsing before any `.refine` runs; the records
below are the already-type-checked inputs, and the `...SchemaIssues`
functions collect the messages of the chained `.refine`s (zod evaluates
every chained refinement on a well-typed input and collects all issues). -/

structure ListEventsInput where
  calendarId : Option String
  start : Option String
  «end» : Option String
  maxResults : Option Nat
  timeZone : Option String
deriving Repr, DecidableEq

structure CreateEventInput where
  calendarId : Option String
  summary : String
  description : Option String
  start : String
  «end» : String
  timeZone : Option String
  attendees : Option (List String)
deriving Repr, DecidableEq

structure UpdateEventInput where
  calendarId : Option String
  eventId : String
  summary : Option String
  description : Option String
  start : Option String
  «end» : Option String
  timeZone : Option String
  attendees : Option (List String)
deriving Repr, DecidableEq

structure DeleteEventInput where
  calendarId : Option String
  eventId : String
deriving Repr, DecidableEq

structure GetFreebusyInput where
  calendarIds : String
  start : String
  «end» : String
  timeZone : Option String
deriving Repr, DecidableEq

/-- `createEventSchema`'s refinement: `new Date(start) < new Date(end)`. -/
def createEventSchemaIssues (i : CreateEventInput) : List String :=
  if jsDateLt i.start i.«end» then [] else ["Start time must be before end time"]

/-- First refinement of `updateEventSchema`: `data.summary ||
data.description !== undefined || data.start || data.end || data.attendees ||
data.timeZone`.  Note that `summary`, `start`, `end` and `timeZone` are
tested by truthiness while `description` is compared against `undefined`,
and an attendees array is truthy even when empty. -/
def updateEventHasField (i : UpdateEventInput) : Bool :=
  truthyStr i.summary || i.description.isSome || truthyStr i.start ||
    truthyStr i.«end» || i.attendees.isSome || truthyStr i.timeZone

/-- Second refinement of `updateEventSchema`: when both `start` and `end`
are (truthily) provided, `new Date(start) < new Date(end)`. -/
def updateEventTimesOk (i : UpdateEventInput) : Bool :=
  if truthyStr i.start && truthyStr i.«end» then
    jsDateLt (i.start.getD "") (i.«end».getD "")
  else true

/-- The chained refinements of `updateEventSchema`, in order. -/
def updateEventSchemaIssues (i : UpdateEventInput) : List String :=
  (if updateEventHasField i then []
    else ["At least one field to update must be provided"]) ++
  (if updateEventTimesOk i then [] else ["Start time must be before end time"])

/-- The chained refinements of `getFreebusySchema`, in order:
`start < end`, then `end - start <= 365 * 24 * 60 * 60 * 1000`. -/
def getFreebusySchemaIssues (i : GetFreebusyInput) : List String :=
  (if jsDateLt i.start i.«end» then []
    else ["Start time must be before end time"]) ++
  (if jsDiffLe i.start i.«end» (365 * 24 * 60 * 60 * 1000) then []
    else ["Time range cannot exceed 1 year"])

/-! ### Helpers of `events.ts` -/

/-- `resolveCalendarId`: `calendarId || "primary"`. -/
def resolveCalendarId (calendarId : Option String) : String :=
  jsOrStr calendarId "primary"

/-- `resolveTimeZone`: returns a truthy `timeZone` untouched, otherwise
fetches the calendar's metadata and returns its zone, defaulting to
`"UTC"`.  The second component is the provider-call trace. -/
def resolveTimeZone (p : Provider) (calendarId : String)
    (timeZone : Option String) :
    Except ProviderError String × List ProviderCall :=
  if truthyStr timeZone then (Except.ok (timeZone.getD ""), [])
  else
    match p.calendarsGet calendarId with
    | Except.ok meta =>
      (Except.ok (jsOrStr meta.timeZone "UTC"), [ProviderCall.calendarsGet calendarId])
    | Except.error e => (Except.error e, [ProviderCall.calendarsGet calendarId])

/-- `formatEventForDisplay`. -/
def formatEventForDisplay (event : GEvent) : String :=
  let start := jsOrStr (jsOrOpt (event.start.bind (·.dateTime))
    (event.start.bind (·.date))) "No start time"
  let summary := jsOrStr event.summary "No title"
  let id := jsOrStr event.id "no-id"
  start ++ " → " ++ summary ++ " (ID: " ++ id ++ ")"

/-- The `catch` of `listEvents`/`searchEvents`/`createEvent`: 404 and
401/403 fold into a text envelope, anything else rethrows. -/
def calendarLevelCatch (notFoundText fatalPrefixText : String)
    (e : ProviderError) : Except String (McpResponse Unit) :=
  if e.code == some 404 then
    Except.ok { content := [⟨notFoundText⟩], data := none }
  else if e.code == some 401 || e.code == some 403 then
    Except.ok { content :=
      [⟨"Unauthorized - check your Google Calendar permissions"⟩], data := none }
  else Except.error (fatalPrefixText ++ errorMsgOf e)

/-! ### `listEvents` -/

/-- `listEvents` from `events.ts`, with the invocation instant `nowMs`
standing for `new Date()`. -/
def listEvents (p : Provider) (nowMs : Nat) (i : ListEventsInput) :
    Except String (McpResponse Unit) × List ProviderCall :=
  let resolvedCalendarId := resolveCalendarId i.calendarId
  let timeMin := jsOrStr i.start (msToIso nowMs)
  let timeMax := jsOrStr i.«end» (msToIso (nowMs + 30 * 24 * 60 * 60 * 1000))
  let onErr := fun (e : ProviderError) =>
    calendarLevelCatch ("Calendar not found: " ++ jsShowUndef i.calendarId)
      "Failed to list events: " e
  match resolveTimeZone p resolvedCalendarId i.timeZone with
  | (Except.error e, tr) => (onErr e, tr)
  | (Except.ok tz, tr) =>
    let q : EventsListQuery :=
      { calendarId := resolvedCalendarId, q := none, timeMin := some timeMin,
        timeMax := some timeMax, maxResults := i.maxResults, timeZone := tz }
    match p.eventsList q with
    | Except.error e => (onErr e, tr ++ [ProviderCall.eventsList q])
    | Except.ok items =>
      let events := items.getD []
      let text :=
        if events.length = 0 then
          "No events found in calendar \x27" ++ resolvedCalendarId ++
            "\x27 from " ++ timeMin ++ " to " ++ timeMax
        else
          "Found " ++ toString events.length ++ " events in calendar \x27" ++
            resolvedCalendarId ++ "\x27:\n\n" ++
            String.intercalate "\n" (events.map formatEventForDisplay)
      (Except.ok { content := [⟨text⟩], data := none },
        tr ++ [ProviderCall.eventsList q])

/-! ### `createEvent` -/

def createEvent (p : Provider) (i : CreateEventInput) :
    Except String (McpResponse Unit) × List ProviderCall :=
  let resolvedCalendarId := resolveCalendarId i.calendarId
  let onErr := fun (e : ProviderError) =>
    calendarLevelCatch ("Calendar not found: " ++ jsShowUndef i.calendarId)
      "Failed to create event: " e
  match resolveTimeZone p resolvedCalendarId i.timeZone with
  | (Except.error e, tr) => (onErr e, tr)
  | (Except.ok tz, tr) =>
    let body : InsertBody :=
      { summary := i.summary, description := i.description,
        start := { dateTime := i.start, timeZone := some tz },
        «end» := { dateTime := i.«end», timeZone := some tz },
        attendees :=
          match i.attendees with
          | some l => if l.length > 0 then some l else none
          | none => none }
    match p.eventsInsert resolvedCalendarId body with
    | Except.error e =>
      (onErr e, tr ++ [ProviderCall.eventsInsert resolvedCalendarId body])
    | Except.ok res =>
      let eventLink := jsOrStr (jsOrOpt res.htmlLink res.id) "unknown"
      let text := "Event created successfully: \"" ++ i.summary ++
        "\"\nEvent link: " ++ eventLink
      (Except.ok { content := [⟨text⟩], data := none },
        tr ++ [ProviderCall.eventsInsert resolvedCalendarId body])

/-! ### `updateEvent` -/

/-- The `catch` of `updateEvent`/`deleteEvent`, whose 404 text names the
event and the raw calendar id. -/
def eventLevelCatch (eventId : String) (calendarId : Option String)
    (fatalPrefixText : String) (e : ProviderError) :
    Except String (McpResponse Unit) :=
  if e.code == some 404 then
    Except.ok { content := [⟨"Event or calendar not found: " ++ eventId ++
      " in " ++ jsShowUndef calendarId⟩], data := none }
  else if e.code == some 401 || e.code == some 403 then
    Except.ok { content :=
      [⟨"Unauthorized - check your Google Calendar permissions"⟩], data := none }
  else Except.error (fatalPrefixText ++ errorMsgOf e)

def updateEvent (p : Provider) (i : UpdateEventInput) :
    Except String (McpResponse Unit) × List ProviderCall :=
  let resolvedCalendarId := resolveCalendarId i.calendarId
  let onErr := eventLevelCatch i.eventId i.calendarId "Failed to update event: "
  -- `let tz = timeZone; if (!tz && (start || end)) tz = await resolveTimeZone(...)`
  let tzStep : Except ProviderError (Option String) × List ProviderCall :=
    if !truthyStr i.timeZone && (truthyStr i.start || truthyStr i.«end») then
      match resolveTimeZone p resolvedCalendarId i.timeZone with
      | (Except.ok z, tr) => (Except.ok (some z), tr)
      | (Except.error e, tr) => (Except.error e, tr)
    else (Except.ok i.timeZone, [])
  match tzStep with
  | (Except.error e, tr) => (onErr e, tr)
  | (Except.ok tz, tr) =>
    let body : PatchBody :=
      { summary := i.summary, description := i.description,
        start := i.start.map (fun s => { dateTime := s, timeZone := tz }),
        «end» := i.«end».map (fun s => { dateTime := s, timeZone := tz }),
        attendees := i.attendees }
    match p.eventsPatch resolvedCalendarId i.eventId body with
    | Except.error e =>
      (onErr e, tr ++ [ProviderCall.eventsPatch resolvedCalendarId i.eventId body])
    | Except.ok res =>
      let eventLink := jsOrStr (jsOrOpt res.htmlLink res.id) i.eventId
      let text := "Event updated successfully: \"" ++
        jsShowUndef (jsOrOpt res.summary i.summary) ++
        "\"\nEvent link: " ++ eventLink
      (Except.ok { content := [⟨text⟩], data := none },
        tr ++ [ProviderCall.eventsPatch resolvedCalendarId i.eventId body])

/-! ### `deleteEvent` and `getCurrentTime` -/

def deleteEvent (p : Provider) (i : DeleteEventInput) :
    Except String (McpResponse Unit) × List ProviderCall :=
  let resolvedCalendarId := resolveCalendarId i.calendarId
  let tr := [ProviderCall.eventsDelete resolvedCalendarId i.eventId]
  match p.eventsDelete resolvedCalendarId i.eventId with
  | Except.ok _ =>
    (Except.ok { content := [⟨"Event deleted successfully: " ++ i.eventId ++
      " from calendar \x27" ++ resolvedCalendarId ++ "\x27"⟩], data := none }, tr)
  | Except.error e =>
    (eventLevelCatch i.eventId i.calendarId "Failed to delete event: " e, tr)

/-- `getCurrentTime`, with the invocation instant and the host's resolved
zone (`Intl.DateTimeFormat().resolvedOptions().timeZone`) as parameters.
It issues no provider call and returns a text-only envelope. -/
def getCurrentTime (nowMs : Nat) (hostTimeZone : String) : McpResponse Unit :=
  { content := [⟨"Current time: " ++ msToIso nowMs ++ " (" ++ hostTimeZone ++ ")"⟩],
    data := none }

/-! ### `getFreebusy` (`freebusy.ts`) -/

/-- `calendarIds.split(",").map(id => id.trim()).filter(id => id.length > 0)` -/
def parseCalendarIds (calendarIds : String) : List String :=
  ((jsSplitOnChar ',' calendarIds).map jsTrim).filter (fun id => id.length > 0)

/-- The JS object lookup `calendars[calendarId]` on the response map. -/
def freebusyCalLookup (cals : List (String × FreeBusyCalInfo)) (cid : String) :
    Option FreeBusyCalInfo :=
  (cals.find? (fun pr => pr.1 == cid)).map (fun pr => pr.2)

/-- `formatBusyTime`. -/
def formatBusyTime (busyTime : FreeBusyInterval) : String :=
  "  • " ++ jsOrStr busyTime.start "Unknown start" ++ " → " ++
    jsOrStr busyTime.«end» "Unknown end"

/-- `formatCalendarBusyTimes`. -/
def formatCalendarBusyTimes (calendarId : String)
    (busyTimes : List FreeBusyInterval) : String :=
  if busyTimes.length = 0 then
    calendarId ++ ":\n  • Free (no busy times)"
  else
    calendarId ++ ":\n" ++ String.intercalate "\n" (busyTimes.map formatBusyTime)

/-- One iteration of the `calendarIdList.forEach` loop of `getFreebusy`:
push one text entry into `calendarResults` and, on the error-free branch
only, one `CalendarFreeBusy` into `freebusyData`. -/
def freebusyStep (cals : List (String × FreeBusyCalInfo))
    (acc : List String × List CalendarFreeBusy) (calendarId : String) :
    List String × List CalendarFreeBusy :=
  match freebusyCalLookup cals calendarId with
  | none =>
    (acc.1 ++ [calendarId ++ ":\n  • Error: Calendar not found or inaccessible"],
      acc.2)
  | some calendarData =>
    match calendarData.errors with
    | some errs =>
      if errs.length > 0 then
        (acc.1 ++ [calendarId ++ ":\n  • Error: " ++
          String.intercalate ", " (errs.map (fun e => jsShowUndef e.reason))],
          acc.2)
      else
        let busyTimes := calendarData.busy.getD []
        (acc.1 ++ [formatCalendarBusyTimes calendarId busyTimes],
          acc.2 ++ [{ calendarId := calendarId, busy := busyTimes }])
    | none =>
      let busyTimes := calendarData.busy.getD []
      (acc.1 ++ [formatCalendarBusyTimes calendarId busyTimes],
        acc.2 ++ [{ calendarId := calendarId, busy := busyTimes }])

/-- The whole `calendarIdList.forEach` loop of `getFreebusy`. -/
def freebusyScan (cals : List (String × FreeBusyCalInfo)) (ids : List String) :
    List String × List CalendarFreeBusy :=
  ids.foldl (freebusyStep cals) ([], [])

/-- `calData && (!calData.errors || calData.errors.length === 0)`: the
per-id success predicate of the summary tally. -/
def freebusyIsOk (cals : List (String × FreeBusyCalInfo)) (cid : String) : Bool :=
  match freebusyCalLookup cals cid with
  | none => false
  | some calendarData =>
    match calendarData.errors with
    | none => true
    | some errs => errs.length == 0

/-- The `catch` of `getFreebusy`: 401/403 and 400 fold into text envelopes
without `data`, anything else rethrows. -/
def freebusyCatch (e : ProviderError) :
    Except String (McpResponse FreeBusyData) :=
  if e.code == some 401 || e.code == some 403 then
    Except.ok
      { content :=
          [⟨"Unauthorized - check your Google Calendar permissions or refresh token"⟩],
        data := none }
  else if e.code == some 400 then
    Except.ok
      { content :=
          [⟨"Bad request - check your date formats and calendar IDs: " ++ errorMsgOf e⟩],
        data := none }
  else Except.error ("Failed to get free/busy information: " ++ errorMsgOf e)

def getFreebusy (p : Provider) (i : GetFreebusyInput) :
    Except String (McpResponse FreeBusyData) × List ProviderCall :=
  -- destructuring default `timeZone = "UTC"` applies to `undefined` only
  let timeZone := i.timeZone.getD "UTC"
  let calendarIdList := parseCalendarIds i.calendarIds
  if calendarIdList.length = 0 then
    (Except.ok
      { content := [⟨"Error: No valid calendar IDs provided."⟩],
        data := some
          { range := ⟨i.start, i.«end»⟩, timeZone := timeZone,
            calendars := [] } }, [])
  else if calendarIdList.length > 50 then
    (Except.ok
      { content := [⟨"Error: Too many calendar IDs (max 50)."⟩],
        data := some
          { range := ⟨i.start, i.«end»⟩, timeZone := timeZone,
            calendars := [] } }, [])
  else
    let requestBody : FreeBusyRequest :=
      { timeMin := i.start, timeMax := i.«end», timeZone := timeZone,
        items := calendarIdList }
    match p.freebusyQuery requestBody with
    | Except.error e =>
      (freebusyCatch e, [ProviderCall.freebusyQuery requestBody])
    | Except.ok calsOpt =>
      let calendars := calsOpt.getD []
      let scan := freebusyScan calendars calendarIdList
      let totalCalendars := calendarIdList.length
      let successfulCalendars :=
        (calendarIdList.filter (freebusyIsOk calendars)).length
      let text := "Free/busy information from " ++ i.start ++ " to " ++
        i.«end» ++ " (" ++ timeZone ++ "):\n\n" ++
        String.intercalate "\n\n" scan.1 ++
        "\n\nSummary: Successfully queried " ++ toString successfulCalendars ++
        "/" ++ toString totalCalendars ++ " calendars."
      (Except.ok
        { content := [⟨text⟩],
          data := some
            { range := ⟨i.start, i.«end»⟩, timeZone := timeZone,
              calendars := scan.2 } },
        [ProviderCall.freebusyQuery requestBody])

/-! ### Tool pipeline: schema validation before the handler

The validation layer runs on the raw input before the handler; a failed
refinement reports its messages and the handler — hence any provider
interaction — never happens. -/

inductive ToolOutcome (T : Type)
  | validationError (messages : List String)
  | ok (r : McpResponse T)
  | fatal (msg : String)
deriving Repr, DecidableEq

def liftOutcome {T : Type} (r : Except String (McpResponse T)) : ToolOutcome T :=
  match r with
  | Except.ok r => ToolOutcome.ok r
  | Except.error m => ToolOutcome.fatal m

/-- The `create_event` tool: `createEventSchema` then `createEvent`. -/
def runCreateEvent (p : Provider) (i : CreateEventInput) :
    ToolOutcome Unit × List ProviderCall :=
  match createEventSchemaIssues i with
  | [] => let r := createEvent p i; (liftOutcome r.1, r.2)
  | msgs => (ToolOutcome.validationError msgs, [])

/-- The `update_event` tool: `updateEventSchema` then `updateEvent`. -/
def runUpdateEvent (p : Provider) (i : UpdateEventInput) :
    ToolOutcome Unit × List ProviderCall :=
  match updateEventSchemaIssues i with
  | [] => let r := updateEvent p i; (liftOutcome r.1, r.2)
  | msgs => (ToolOutcome.validationError msgs, [])

/-- The `get_freebusy` tool: `getFreebusySchema` then `getFreebusy`. -/
def runGetFreebusy (p : Provider) (i : GetFreebusyInput) :
    ToolOutcome FreeBusyData × List ProviderCall :=
  match getFreebusySchemaIssues i with
  | [] => let r := getFreebusy p i; (liftOutcome r.1, r.2)
  | msgs => (ToolOutcome.validationError msgs, [])

/-! ### Per-id classification, stated independently (for C3)

These two functions restate the body of the `forEach` loop as a function of
a single calendar id, so that the loop can be proven equal to an
independent per-id map — one id's outcome never influencing another's. -/

/-- The text entry one calendar id contributes: "not found or inaccessible"
when the id is absent from the provider's response map, the joined error
reasons when its error list is non-empty, and its busy windows otherwise. -/
def freebusyEntrySpec (cals : List (String × FreeBusyCalInfo))
    (calendarId : String) : String :=
  match freebusyCalLookup cals calendarId with
  | none => calendarId ++ ":\n  • Error: Calendar not found or inaccessible"
  | some calendarData =>
    match calendarData.errors with
    | some errs =>
      if errs.length > 0 then
        calendarId ++ ":\n  • Error: " ++
          String.intercalate ", " (errs.map (fun e => jsShowUndef e.reason))
      else formatCalendarBusyTimes calendarId (calendarData.busy.getD [])
    | none => formatCalendarBusyTimes calendarId (calendarData.busy.getD [])

/-- The structured entry one calendar id contributes: its busy intervals in
provider order when it is present without errors, nothing otherwise. -/
def freebusyDataSpec (cals : List (String × FreeBusyCalInfo))
    (calendarId : String) : Option CalendarFreeBusy :=
  match freebusyCalLookup cals calendarId with
  | none => none
  | some calendarData =>
    match calendarData.errors with
    | some errs =>
      if errs.length > 0 then none
      else some { calendarId := calendarId, busy := calendarData.busy.getD [] }
    | none => some { calendarId := calendarId, busy := calendarData.busy.getD [] }

/-- A concrete provider for instantiating the universally quantified
theorems below at executable inputs. -/
def stubProvider : Provider :=
  { calendarsGet := fun _ => Except.ok { timeZone := some "Europe/Paris" },
    eventsList := fun _ => Except.ok (some []),
    eventsInsert := fun _ _ =>
      Except.ok { id := some "e1", summary := none, htmlLink := none },
    eventsPatch := fun _ _ _ =>
      Except.ok { id := some "e1", summary := some "t", htmlLink := none },
    eventsDelete := fun _ _ => Except.ok (),
    freebusyQuery := fun _ => Except.ok (some []) }

/-! ### Concrete instances used to exercise the theorems below -/

/-- `get_freebusy` input whose id string trims away to nothing. -/
def fbEmptyIdsInput : GetFreebusyInput :=
  ⟨",, ,", "2024-01-01T00:00:00.000Z", "2024-01-02T00:00:00.000Z", none⟩

/-- 51 comma-separated calendar ids. -/
def manyIds : String := String.intercalate "," (List.replicate 51 "c")

/-- `get_freebusy` input with 51 ids. -/
def fbManyIdsInput : GetFreebusyInput :=
  ⟨manyIds, "2024-01-01T00:00:00.000Z", "2024-01-02T00:00:00.000Z", some "UTC"⟩

/-- A freebusy batch over three ids. -/
def fbBatchInput : GetFreebusyInput :=
  ⟨"alpha,beta,gamma", "2024-01-01T00:00:00.000Z", "2024-01-02T00:00:00.000Z", none⟩

/-- Provider freebusy response covering `alpha` and `beta` but omitting
`gamma`. -/
def fbCals3 : List (String × FreeBusyCalInfo) :=
  [("alpha",
    ⟨none, some [⟨some "2024-01-01T10:00:00.000Z", some "2024-01-01T11:00:00.000Z"⟩]⟩),
   ("beta", ⟨some [], some []⟩)]

/-- Provider answering every freebusy query with `fbCals3`. -/
def fbProvider3 : Provider :=
  { stubProvider with freebusyQuery := fun _ => Except.ok (some fbCals3) }

/-- Provider whose delete call fails with HTTP 404. -/
def err404Provider : Provider :=
  { stubProvider with
      eventsDelete := fun _ _ => Except.error ⟨some 404, some "Not Found"⟩ }

/-- Provider whose delete call fails with HTTP 500. -/
def err500Provider : Provider :=
  { stubProvider with
      eventsDelete := fun _ _ => Except.error ⟨some 500, some "Backend Error"⟩ }

def delInput : DeleteEventInput := ⟨some "work", "evt42"⟩

/-- `create_event` input whose start is after its end. -/
def badCreateInput : CreateEventInput :=
  ⟨none, "Meeting", none, "2024-01-02T00:00:00.000Z", "2024-01-01T00:00:00.000Z",
    none, none⟩

/-- `update_event` input whose start is after its end. -/
def badUpdateInput : UpdateEventInput :=
  ⟨none, "evt1", none, none, some "2024-01-02T00:00:00.000Z",
    some "2024-01-01T00:00:00.000Z", none, none⟩

/-- `update_event` input supplying no mutable field at all. -/
def emptyUpdateInput : UpdateEventInput :=
  ⟨some "primary", "evt1", none, none, none, none, none, none⟩

/-- `update_event` input whose only supplied field is `summary = ""`. -/
def summaryEmptyUpdateInput : UpdateEventInput :=
  ⟨none, "evt1", some "", none, none, none, none, none⟩

/-- `update_event` input whose only supplied field is `description = ""`. -/
def descriptionEmptyUpdateInput : UpdateEventInput :=
  ⟨none, "evt1", none, some "", none, none, none, none⟩

/-- `get_freebusy` input spanning exactly 365 days. -/
def fbYearOkInput : GetFreebusyInput :=
  ⟨"a", "2023-01-01T00:00:00.000Z", "2024-01-01T00:00:00.000Z", none⟩

/-- `get_freebusy` input spanning 365 days plus one millisecond. -/
def fbYearBadInput : GetFreebusyInput :=
  ⟨"a", "2023-01-01T00:00:00.000Z", "2024-01-01T00:00:00.001Z", none⟩

/-- `list_events` input with no explicit time window. -/
def listDefaultInput : ListEventsInput := ⟨none, none, none, none, some "UTC"⟩

/-- `update_event` input with a start time but no timezone. -/
def updNeedsTzInput : UpdateEventInput :=
  ⟨none, "evt1", none, none, some "2024-01-01T10:00:00.000Z", none, none, none⟩

/-- `update_event` input touching only `summary`. -/
def updFieldOnlyInput : UpdateEventInput :=
  ⟨none, "evt1", some "New title", none, none, none, none, none⟩

/-! ### Supporting lemmas -/

theorem resolveTimeZone_calls (p : Provider) (cid : String) (tz : Option String) :
    (resolveTimeZone p cid tz).2 = [] ∨
      (resolveTimeZone p cid tz).2 = [ProviderCall.calendarsGet cid] := by
  unfold resolveTimeZone
  split
  · exact Or.inl rfl
  · split <;> exact Or.inr rfl

theorem resolveTimeZone_untruthy_calls (p : Provider) (cid : String)
    (tz : Option String) (h : truthyStr tz = false) :
    (resolveTimeZone p cid tz).2 = [ProviderCall.calendarsGet cid] := by
  simp only [resolveTimeZone, h]
  rw [if_neg (by simp)]
  split <;> rfl

theorem freebusyStep_eq (cals : List (String × FreeBusyCalInfo))
    (acc : List String × List CalendarFreeBusy) (cid : String) :
    freebusyStep cals acc cid =
      (acc.1 ++ [freebusyEntrySpec cals cid],
        acc.2 ++ (freebusyDataSpec cals cid).toList) := by
  unfold freebusyStep freebusyEntrySpec freebusyDataSpec
  cases hl : freebusyCalLookup cals cid with
  | none => simp
  | some cd =>
    cases he : cd.errors with
    | none => simp [he]
    | some errs =>
      simp only [he]
      split <;> simp

/-- The `forEach` of `getFreebusy` is an independent per-id map: each id
contributes exactly its own classification, in input order. -/
theorem freebusyScan_eq (cals : List (String × FreeBusyCalInfo))
    (ids : List String) :
    freebusyScan cals ids =
      (ids.map (freebusyEntrySpec cals), ids.filterMap (freebusyDataSpec cals)) := by
  have go : ∀ (l : List String) (acc : List String × List CalendarFreeBusy),
      l.foldl (freebusyStep cals) acc =
        (acc.1 ++ l.map (freebusyEntrySpec cals),
          acc.2 ++ l.filterMap (freebusyDataSpec cals)) := by
    intro l
    induction l with
    | nil => intro acc; simp
    | cons hd tl ih =>
      intro acc
      simp only [List.foldl_cons, ih, freebusyStep_eq, List.map_cons,
        List.filterMap_cons]
      cases freebusyDataSpec cals hd <;> simp
  simpa [freebusyScan] using go ids ([], [])

/-! ### The claims -/

/-- C2: whenever the `calendarIds` string of a `get_freebusy` call, after
splitting on commas, trimming and dropping empties, yields zero ids or more
than 50, the handler returns a success envelope whose single text block is
the corresponding explanatory error message, whose `data.calendars` is the
empty sequence, and it issues no provider call at all. -/
theorem C2_freebusy_soft_reject (p : Provider) (i : GetFreebusyInput)
    (h : (parseCalendarIds i.calendarIds).length = 0 ∨
      50 < (parseCalendarIds i.calendarIds).length) :
    (getFreebusy p i).1 = Except.ok
      { content := [⟨if (parseCalendarIds i.calendarIds).length = 0 then
          "Error: No valid calendar IDs provided."
        else "Error: Too many calendar IDs (max 50)."⟩],
        data := some ⟨⟨i.start, i.«end»⟩, i.timeZone.getD "UTC", []⟩ } ∧
    (getFreebusy p i).2 = [] := by
  rcases h with h | h
  · simp [getFreebusy, h]
  · have h0 : ¬ (parseCalendarIds i.calendarIds).length = 0 := by omega
    simp [getFreebusy, h0, h]

/-- C2 witness: `",, ,"` yields zero valid ids and `manyIds` yields 51;
both soft-reject with empty `data.calendars` and no provider interaction. -/
theorem C2_freebusy_soft_reject_witness :
    ((parseCalendarIds fbEmptyIdsInput.calendarIds).length = 0 ∨
      50 < (parseCalendarIds fbEmptyIdsInput.calendarIds).length) ∧
    ((getFreebusy stubProvider fbEmptyIdsInput).1 = Except.ok
      { content := [⟨if (parseCalendarIds fbEmptyIdsInput.calendarIds).length = 0 then
          "Error: No valid calendar IDs provided."
        else "Error: Too many calendar IDs (max 50)."⟩],
        data := some ⟨⟨fbEmptyIdsInput.start, fbEmptyIdsInput.«end»⟩,
          fbEmptyIdsInput.timeZone.getD "UTC", []⟩ } ∧
      (getFreebusy stubProvider fbEmptyIdsInput).2 = []) ∧
    ((parseCalendarIds fbManyIdsInput.calendarIds).length = 0 ∨
      50 < (parseCalendarIds fbManyIdsInput.calendarIds).length) ∧
    ((getFreebusy stubProvider fbManyIdsInput).1 = Except.ok
      { content := [⟨if (parseCalendarIds fbManyIdsInput.calendarIds).length = 0 then
          "Error: No valid calendar IDs provided."
        else "Error: Too many calendar IDs (max 50)."⟩],
        data := some ⟨⟨fbManyIdsInput.start, fbManyIdsInput.«end»⟩,
          fbManyIdsInput.timeZone.getD "UTC", []⟩ } ∧
      (getFreebusy stubProvider fbManyIdsInput).2 = []) :=
  ⟨Or.inl (by decide),
    C2_freebusy_soft_reject stubProvider fbEmptyIdsInput (Or.inl (by decide)),
    Or.inr (by decide),
    C2_freebusy_soft_reject stubProvider fbManyIdsInput (Or.inr (by decide))⟩

/-- C4: `create_event` validation reports "Start time must be before end
time" exactly when the parsed start instant is not strictly before the
parsed end instant, and likewise for `update_event` whenever both `start`
and `end` are (truthily) supplied; a call rejected by validation reaches no
handler code and so performs no provider interaction. -/
theorem C4_start_before_end_validation (p : Provider) (ic : CreateEventInput)
    (iu : UpdateEventInput) :
    (("Start time must be before end time" ∈ createEventSchemaIssues ic) ↔
      ¬ jsDateLt ic.start ic.«end») ∧
    (createEventSchemaIssues ic ≠ [] →
      runCreateEvent p ic =
        (ToolOutcome.validationError ["Start time must be before end time"], [])) ∧
    (truthyStr iu.start = true → truthyStr iu.«end» = true →
      (("Start time must be before end time" ∈ updateEventSchemaIssues iu) ↔
        ¬ jsDateLt (iu.start.getD "") (iu.«end».getD ""))) ∧
    (updateEventSchemaIssues iu ≠ [] →
      runUpdateEvent p iu =
        (ToolOutcome.validationError (updateEventSchemaIssues iu), [])) := by
  refine ⟨?_, ?_, ?_, ?_⟩
  · unfold createEventSchemaIssues
    split <;> simp_all
  · intro hne
    unfold runCreateEvent createEventSchemaIssues
    unfold createEventSchemaIssues at hne
    split at hne <;> simp_all
  · intro h1 h2
    unfold updateEventSchemaIssues updateEventTimesOk
    rw [h1, h2]
    simp only [Bool.and_self, List.mem_append, if_true]
    split_ifs with hf hd hd <;> simp_all
  · intro hne
    unfold runUpdateEvent
    split <;> simp_all

/-- C4 witness: a create input and an update input whose start is one day
after their end are rejected with the message and zero provider calls. -/
theorem C4_start_before_end_validation_witness :
    createEventSchemaIssues badCreateInput ≠ [] ∧
    runCreateEvent stubProvider badCreateInput =
      (ToolOutcome.validationError ["Start time must be before end time"], []) ∧
    truthyStr badUpdateInput.start = true ∧
    truthyStr badUpdateInput.«end» = true ∧
    updateEventSchemaIssues badUpdateInput ≠ [] ∧
    runUpdateEvent stubProvider badUpdateInput =
      (ToolOutcome.validationError (updateEventSchemaIssues badUpdateInput), []) :=
  ⟨by decide,
    (C4_start_before_end_validation stubProvider badCreateInput badUpdateInput).2.1
      (by decide),
    by decide, by decide, by decide,
    (C4_start_before_end_validation stubProvider badCreateInput badUpdateInput).2.2.2
      (by decide)⟩

/-- C5: an `update_event` input supplying none of the six optional mutable
fields fails the first refinement with "At least one field to update must be
provided", and the tool call is rejected before any provider interaction —
for every provider, hence regardless of whether `eventId` exists. -/
theorem C5_update_requires_some_field (p : Provider) (i : UpdateEventInput)
    (h1 : i.summary = none) (h2 : i.description = none) (h3 : i.start = none)
    (h4 : i.«end» = none) (h5 : i.attendees = none) (h6 : i.timeZone = none) :
    updateEventSchemaIssues i = ["At least one field to update must be provided"] ∧
    runUpdateEvent p i =
      (ToolOutcome.validationError
        ["At least one field to update must be provided"], []) := by
  have hs : updateEventSchemaIssues i =
      ["At least one field to update must be provided"] := by
    simp [updateEventSchemaIssues, updateEventHasField, updateEventTimesOk,
      truthyStr, h1, h2, h3, h4, h5, h6]
  exact ⟨hs, by simp [runUpdateEvent, hs]⟩

/-- C5 witness: the all-absent update input is rejected with the message
and an empty provider-call trace. -/
theorem C5_update_requires_some_field_witness :
    emptyUpdateInput.summary = none ∧
    updateEventSchemaIssues emptyUpdateInput =
      ["At least one field to update must be provided"] ∧
    runUpdateEvent stubProvider emptyUpdateInput =
      (ToolOutcome.validationError
        ["At least one field to update must be provided"], []) :=
  ⟨rfl,
    (C5_update_requires_some_field stubProvider emptyUpdateInput
      rfl rfl rfl rfl rfl rfl).1,
    (C5_update_requires_some_field stubProvider emptyUpdateInput
      rfl rfl rfl rfl rfl rfl).2⟩

/-- C7: on a `get_freebusy` input whose start and end both parse, the
refinement message "Time range cannot exceed 1 year" is reported exactly
when the end instant minus the start instant exceeds
365·24·60·60·1000 milliseconds; in particular a span of exactly 365 days is
accepted. -/
theorem C7_freebusy_range_cap (i : GetFreebusyInput) (s e : Nat)
    (hs : jsDateParse i.start = some s) (he : jsDateParse i.«end» = some e) :
    ("Time range cannot exceed 1 year" ∈ getFreebusySchemaIssues i) ↔
      ((365 * 24 * 60 * 60 * 1000 : Int) < (e : Int) - (s : Int)) := by
  unfold getFreebusySchemaIssues jsDiffLe jsDateLt
  rw [hs, he]
  simp only [List.mem_append]
  split_ifs with h1 h2 h2 <;> simp_all <;> omega

/-- C7 witness: a span of exactly 365 days is accepted and a span one
millisecond longer is rejected with the range message. -/
theorem C7_freebusy_range_cap_witness :
    jsDateParse fbYearOkInput.start = some 1672531200000 ∧
    jsDateParse fbYearOkInput.«end» = some 1704067200000 ∧
    ¬ ("Time range cannot exceed 1 year" ∈ getFreebusySchemaIssues fbYearOkInput) ∧
    jsDateParse fbYearBadInput.«end» = some 1704067200001 ∧
    ("Time range cannot exceed 1 year" ∈ getFreebusySchemaIssues fbYearBadInput) :=
  ⟨by decide, by decide,
    fun h => absurd ((C7_freebusy_range_cap fbYearOkInput 1672531200000 1704067200000
      (by decide) (by decide)).mp h) (by decide),
    by decide,
    (C7_freebusy_range_cap fbYearBadInput 1672531200000 1704067200001
      (by decide) (by decide)).mpr (by decide)⟩

/-- C10: the first refinement of `updateEventSchema` tests `summary`,
`start`, `end` and `timeZone` by JS truthiness but `description` by strict
`!== undefined`, so an update whose only supplied field is the empty-string
`summary` is rejected with "At least one field to update must be provided",
while one whose only supplied field is the empty-string `description`
passes validation. -/
theorem C10_update_truthiness_asymmetry (i j : UpdateEventInput)
    (hi : i.summary = some "" ∧ i.description = none ∧ i.start = none ∧
      i.«end» = none ∧ i.attendees = none ∧ i.timeZone = none)
    (hj : j.summary = none ∧ j.description = some "" ∧ j.start = none ∧
      j.«end» = none ∧ j.attendees = none ∧ j.timeZone = none) :
    updateEventSchemaIssues i = ["At least one field to update must be provided"] ∧
    updateEventSchemaIssues j = [] := by
  obtain ⟨i1, i2, i3, i4, i5, i6⟩ := hi
  obtain ⟨j1, j2, j3, j4, j5, j6⟩ := hj
  constructor
  · simp [updateEventSchemaIssues, updateEventHasField, updateEventTimesOk,
      truthyStr, i1, i2, i3, i4, i5, i6]
  · simp [updateEventSchemaIssues, updateEventHasField, updateEventTimesOk,
      truthyStr, j1, j2, j3, j4, j5, j6]

/-- C10 witness: `summary = ""` alone is rejected, `description = ""` alone
is accepted. -/
theorem C10_update_truthiness_asymmetry_witness :
    summaryEmptyUpdateInput.summary = some "" ∧
    descriptionEmptyUpdateInput.description = some "" ∧
    updateEventSchemaIssues summaryEmptyUpdateInput =
      ["At least one field to update must be provided"] ∧
    updateEventSchemaIssues descriptionEmptyUpdateInput = [] :=
  ⟨rfl, rfl,
    (C10_update_truthiness_asymmetry summaryEmptyUpdateInput
      descriptionEmptyUpdateInput ⟨rfl, rfl, rfl, rfl, rfl, rfl⟩
      ⟨rfl, rfl, rfl, rfl, rfl, rfl⟩).1,
    (C10_update_truthiness_asymmetry summaryEmptyUpdateInput
      descriptionEmptyUpdateInput ⟨rfl, rfl, rfl, rfl, rfl, rfl⟩
      ⟨rfl, rfl, rfl, rfl, rfl, rfl⟩).2⟩

/-- `deleteEvent` issues exactly its one delete call, whatever the
provider answers. -/
theorem deleteEvent_calls (p : Provider) (j : DeleteEventInput) :
    (deleteEvent p j).2 =
      [ProviderCall.eventsDelete (resolveCalendarId j.calendarId) j.eventId] := by
  cases h : p.eventsDelete (resolveCalendarId j.calendarId) j.eventId <;>
    simp [deleteEvent, h]

/-- C6: when the provider's delete call fails with code 404, `delete_event`
returns a success-shaped envelope whose text names the event id and the raw
calendar id and whose `data` is omitted; when the code is neither 404 nor
401 nor 403 (e.g. 500, or absent), the handler rethrows a fatal error
instead of returning an envelope. -/
theorem C6_delete_error_classification (p : Provider) (i : DeleteEventInput)
    (e : ProviderError)
    (hp : p.eventsDelete (resolveCalendarId i.calendarId) i.eventId =
      Except.error e) :
    (e.code = some 404 →
      (deleteEvent p i).1 = Except.ok
        { content := [⟨"Event or calendar not found: " ++ i.eventId ++ " in " ++
            jsShowUndef i.calendarId⟩], data := none }) ∧
    (e.code ≠ some 404 → e.code ≠ some 401 → e.code ≠ some 403 →
      (deleteEvent p i).1 =
        Except.error ("Failed to delete event: " ++ errorMsgOf e)) := by
  constructor
  · intro h404
    simp [deleteEvent, hp, eventLevelCatch, h404]
  · intro h1 h2 h3
    simp [deleteEvent, hp, eventLevelCatch, beq_iff_eq, h1, h2, h3]

/-- C6 witness: a 404 delete failure folds into the not-found envelope with
no `data`; a 500 delete failure propagates as a fatal error. -/
theorem C6_delete_error_classification_witness :
    err404Provider.eventsDelete (resolveCalendarId delInput.calendarId)
      delInput.eventId = Except.error ⟨some 404, some "Not Found"⟩ ∧
    (deleteEvent err404Provider delInput).1 = Except.ok
      { content := [⟨"Event or calendar not found: " ++ delInput.eventId ++
          " in " ++ jsShowUndef delInput.calendarId⟩], data := none } ∧
    err500Provider.eventsDelete (resolveCalendarId delInput.calendarId)
      delInput.eventId = Except.error ⟨some 500, some "Backend Error"⟩ ∧
    (deleteEvent err500Provider delInput).1 =
      Except.error ("Failed to delete event: " ++
        errorMsgOf ⟨some 500, some "Backend Error"⟩) :=
  ⟨rfl,
    (C6_delete_error_classification err404Provider delInput
      ⟨some 404, some "Not Found"⟩ rfl).1 rfl,
    rfl,
    (C6_delete_error_classification err500Provider delInput
      ⟨some 500, some "Backend Error"⟩ rfl).2
      (by decide) (by decide) (by decide)⟩

/-- C8: when both `start` and `end` are omitted, every events-list query
`listEvents` issues carries the window from the invocation instant `t` to
exactly `t + 30·24·60·60·1000` milliseconds, and such a query is issued
whenever the timezone resolution step succeeds. -/
theorem C8_list_events_default_window (p : Provider) (t : Nat)
    (i : ListEventsInput) (hs : i.start = none) (he : i.«end» = none) :
    (∀ q : EventsListQuery, ProviderCall.eventsList q ∈ (listEvents p t i).2 →
      q.timeMin = some (msToIso t) ∧
      q.timeMax = some (msToIso (t + 30 * 24 * 60 * 60 * 1000))) ∧
    (∀ z tr, resolveTimeZone p (resolveCalendarId i.calendarId) i.timeZone =
        (Except.ok z, tr) →
      ∃ q : EventsListQuery, ProviderCall.eventsList q ∈ (listEvents p t i).2 ∧
        q.timeMin = some (msToIso t) ∧
        q.timeMax = some (msToIso (t + 30 * 24 * 60 * 60 * 1000))) := by
  constructor
  · intro q hq
    simp only [listEvents] at hq
    have htr := resolveTimeZone_calls p (resolveCalendarId i.calendarId) i.timeZone
    split at hq
    case _ e tr heq =>
      rw [heq] at htr
      simp only [] at htr
      rcases htr with h | h <;> rw [h] at hq <;> simp_all
    case _ tz tr heq =>
      rw [heq] at htr
      simp only [] at htr
      split at hq <;> simp only [List.mem_append, List.mem_singleton] at hq <;>
        rcases hq with hq | hq <;>
        first
        | (rcases htr with h | h <;> rw [h] at hq <;> simp_all)
        | (injection hq with h; subst h;
            exact ⟨by simp [jsOrStr, truthyStr, hs],
              by simp [jsOrStr, truthyStr, he]⟩)
  · intro z tr hrtz
    refine ⟨⟨resolveCalendarId i.calendarId, none,
        some (jsOrStr i.start (msToIso t)),
        some (jsOrStr i.«end» (msToIso (t + 30 * 24 * 60 * 60 * 1000))),
        i.maxResults, z⟩, ?_,
      by simp [jsOrStr, truthyStr, hs], by simp [jsOrStr, truthyStr, he]⟩
    simp only [listEvents]
    rcases hl : p.eventsList ⟨resolveCalendarId i.calendarId, none,
        some (jsOrStr i.start (msToIso t)),
        some (jsOrStr i.«end» (msToIso (t + 30 * 24 * 60 * 60 * 1000))),
        i.maxResults, z⟩ with e | items <;>
      simp [hrtz, hl]

/-- C8 witness: at `t = 1700000000000` with no explicit window, the issued
query spans `2023-11-14T22:13:20.000Z` to `2023-12-14T22:13:20.000Z`,
exactly 30 days later. -/
theorem C8_list_events_default_window_witness :
    listDefaultInput.start = none ∧ listDefaultInput.«end» = none ∧
    (∃ q : EventsListQuery,
      ProviderCall.eventsList q ∈ (listEvents stubProvider 1700000000000 listDefaultInput).2 ∧
      q.timeMin = some (msToIso 1700000000000) ∧
      q.timeMax = some (msToIso (1700000000000 + 30 * 24 * 60 * 60 * 1000))) ∧
    msToIso 1700000000000 = "2023-11-14T22:13:20.000Z" ∧
    msToIso (1700000000000 + 30 * 24 * 60 * 60 * 1000) =
      "2023-12-14T22:13:20.000Z" :=
  ⟨rfl, rfl,
    (C8_list_events_default_window stubProvider 1700000000000 listDefaultInput
      rfl rfl).2 "UTC" [] rfl,
    by decide, by decide⟩

/-- C9: `resolveTimeZone` returns a (truthily) given zone with no provider
interaction; otherwise it issues exactly one calendar-metadata call and, on
success, returns the calendar's configured zone or `"UTC"` when the
provider reports none; `updateEvent` triggers that lookup exactly when
`start` or `end` is (truthily) present and no (truthy) explicit `timeZone`
is given; and `deleteEvent` never issues a metadata call. -/
theorem C9_resolve_timezone_contract (p : Provider) (cid : String)
    (tz : Option String) (i : UpdateEventInput) (j : DeleteEventInput) :
    (truthyStr tz = true →
      resolveTimeZone p cid tz = (Except.ok (tz.getD ""), [])) ∧
    (truthyStr tz = false →
      (resolveTimeZone p cid tz).2 = [ProviderCall.calendarsGet cid] ∧
      ∀ meta, p.calendarsGet cid = Except.ok meta →
        (resolveTimeZone p cid tz).1 = Except.ok (jsOrStr meta.timeZone "UTC")) ∧
    ((∃ c, ProviderCall.calendarsGet c ∈ (updateEvent p i).2) ↔
      (truthyStr i.timeZone = false ∧
        (truthyStr i.start = true ∨ truthyStr i.«end» = true))) ∧
    (∀ c, ProviderCall.calendarsGet c ∉ (deleteEvent p j).2) := by
  refine ⟨?_, ?_, ?_, ?_⟩
  · intro h
    simp [resolveTimeZone, h]
  · intro h
    refine ⟨resolveTimeZone_untruthy_calls p cid tz h, ?_⟩
    intro meta hm
    simp [resolveTimeZone, h, hm]
  · constructor
    · rintro ⟨c, hc⟩
      by_cases hcond :
        (!truthyStr i.timeZone && (truthyStr i.start || truthyStr i.«end»)) = true
      · simpa [Bool.and_eq_true, Bool.or_eq_true] using hcond
      · exfalso
        simp only [updateEvent] at hc
        rw [if_neg hcond] at hc
        simp only [] at hc
        split at hc <;> simp at hc
    · rintro ⟨h1, h2⟩
      have hcond :
          (!truthyStr i.timeZone && (truthyStr i.start || truthyStr i.«end»)) = true := by
        simp [h1]
        rcases h2 with h | h <;> simp [h]
      refine ⟨resolveCalendarId i.calendarId, ?_⟩
      simp only [updateEvent]
      rw [if_pos hcond]
      have htr := resolveTimeZone_untruthy_calls p (resolveCalendarId i.calendarId)
        i.timeZone (by simpa using h1)
      rcases hr : resolveTimeZone p (resolveCalendarId i.calendarId) i.timeZone
        with ⟨r, tr⟩
      rw [hr] at htr
      simp only [] at htr
      subst htr
      cases r with
      | error e => simp
      | ok z =>
        simp only []
        split <;> simp
  · intro c
    simp [deleteEvent_calls]

/-- C9 witness: a truthy zone short-circuits; an absent zone issues one
metadata call returning the calendar's zone; an update touching `start`
with no zone triggers the lookup while a summary-only update does not; a
delete never does. -/
theorem C9_resolve_timezone_contract_witness :
    truthyStr (some "Asia/Tokyo") = true ∧
    resolveTimeZone stubProvider "primary" (some "Asia/Tokyo") =
      (Except.ok "Asia/Tokyo", []) ∧
    truthyStr (none : Option String) = false ∧
    (resolveTimeZone stubProvider "primary" none).2 =
      [ProviderCall.calendarsGet "primary"] ∧
    stubProvider.calendarsGet "primary" = Except.ok ⟨some "Europe/Paris"⟩ ∧
    (resolveTimeZone stubProvider "primary" none).1 =
      Except.ok (jsOrStr (some "Europe/Paris") "UTC") ∧
    (∃ c, ProviderCall.calendarsGet c ∈
      (updateEvent stubProvider updNeedsTzInput).2) ∧
    (¬ ∃ c, ProviderCall.calendarsGet c ∈
      (updateEvent stubProvider updFieldOnlyInput).2) ∧
    ProviderCall.calendarsGet "work" ∉ (deleteEvent stubProvider delInput).2 :=
  ⟨by decide,
    (C9_resolve_timezone_contract stubProvider "primary" (some "Asia/Tokyo")
      updNeedsTzInput delInput).1 (by decide),
    rfl,
    ((C9_resolve_timezone_contract stubProvider "primary" none
      updNeedsTzInput delInput).2.1 rfl).1,
    rfl,
    ((C9_resolve_timezone_contract stubProvider "primary" none
      updNeedsTzInput delInput).2.1 rfl).2 ⟨some "Europe/Paris"⟩ rfl,
    ((C9_resolve_timezone_contract stubProvider "primary" none
      updNeedsTzInput delInput).2.2.1).mpr ⟨rfl, Or.inl (by decide)⟩,
    (fun hex => absurd
      (((C9_resolve_timezone_contract stubProvider "primary" none
        updFieldOnlyInput delInput).2.2.1).mp hex) (by decide)),
    (C9_resolve_timezone_contract stubProvider "primary" none
      updNeedsTzInput delInput).2.2.2 "work"⟩

/-- C3: on a freebusy batch the provider answers (with a response map),
every id is classified independently — absent ids render the not-found
entry, ids with a non-empty error list render their joined reasons, and
error-free ids contribute their busy intervals in provider order to
`data.calendars` (see `freebusyEntrySpec`/`freebusyDataSpec` and
`freebusyScan_eq`) — and the response text ends with the
`successful/total` tally; the call succeeds even when some ids failed. -/
theorem C3_freebusy_per_id_classification (p : Provider) (i : GetFreebusyInput)
    (cals : List (String × FreeBusyCalInfo))
    (hn : (parseCalendarIds i.calendarIds).length ≠ 0)
    (h50 : (parseCalendarIds i.calendarIds).length ≤ 50)
    (hq : p.freebusyQuery
        { timeMin := i.start, timeMax := i.«end»,
          timeZone := i.timeZone.getD "UTC",
          items := parseCalendarIds i.calendarIds } = Except.ok (some cals)) :
    (getFreebusy p i).1 = Except.ok
      { content := [⟨"Free/busy information from " ++ i.start ++ " to " ++
          i.«end» ++ " (" ++ i.timeZone.getD "UTC" ++ "):\n\n" ++
          String.intercalate "\n\n"
            ((parseCalendarIds i.calendarIds).map (freebusyEntrySpec cals)) ++
          "\n\nSummary: Successfully queried " ++
          toString ((parseCalendarIds i.calendarIds).filter
            (freebusyIsOk cals)).length ++ "/" ++
          toString (parseCalendarIds i.calendarIds).length ++ " calendars."⟩],
        data := some ⟨⟨i.start, i.«end»⟩, i.timeZone.getD "UTC",
          (parseCalendarIds i.calendarIds).filterMap (freebusyDataSpec cals)⟩ } := by
  have h50x : ¬ (parseCalendarIds i.calendarIds).length > 50 := by omega
  simp [getFreebusy, hn, h50x, hq, freebusyScan_eq]

/-- C3 witness: the batch `alpha,beta,gamma` against a provider that covers
only `alpha` and `beta` succeeds, tallies 2/3 and renders the not-found
entry for `gamma` while keeping the other two ids' data. -/
theorem C3_freebusy_per_id_classification_witness :
    (parseCalendarIds fbBatchInput.calendarIds).length ≠ 0 ∧
    (parseCalendarIds fbBatchInput.calendarIds).length ≤ 50 ∧
    fbProvider3.freebusyQuery
      { timeMin := fbBatchInput.start, timeMax := fbBatchInput.«end»,
        timeZone := fbBatchInput.timeZone.getD "UTC",
        items := parseCalendarIds fbBatchInput.calendarIds } =
      Except.ok (some fbCals3) ∧
    (getFreebusy fbProvider3 fbBatchInput).1 = Except.ok
      { content := [⟨"Free/busy information from " ++ fbBatchInput.start ++
          " to " ++ fbBatchInput.«end» ++ " (" ++
          fbBatchInput.timeZone.getD "UTC" ++ "):\n\n" ++
          String.intercalate "\n\n"
            ((parseCalendarIds fbBatchInput.calendarIds).map
              (freebusyEntrySpec fbCals3)) ++
          "\n\nSummary: Successfully queried " ++
          toString ((parseCalendarIds fbBatchInput.calendarIds).filter
            (freebusyIsOk fbCals3)).length ++ "/" ++
          toString (parseCalendarIds fbBatchInput.calendarIds).length ++
          " calendars."⟩],
        data := some ⟨⟨fbBatchInput.start, fbBatchInput.«end»⟩,
          fbBatchInput.timeZone.getD "UTC",
          (parseCalendarIds fbBatchInput.calendarIds).filterMap
            (freebusyDataSpec fbCals3)⟩ } ∧
    ((parseCalendarIds fbBatchInput.calendarIds).filter
      (freebusyIsOk fbCals3)).length = 2 ∧
    (parseCalendarIds fbBatchInput.calendarIds).length = 3 ∧
    freebusyEntrySpec fbCals3 "gamma" =
      "gamma:\n  • Error: Calendar not found or inaccessible" :=
  ⟨by decide, by decide, rfl,
    C3_freebusy_per_id_classification fbProvider3 fbBatchInput fbCals3
      (by decide) (by decide) rfl,
    by decide, by decide, by decide⟩

/-- C1: contrary to the claim (and to the tool-suite documentation), the
`events.ts` success paths return text-only envelopes: a successful
`delete_event` carries no `data` at all (its response type has no `data`
field, embedded here as `data = none`, not `{calendarId, eventId,
deleted: true}`), and `get_current_time` puts the ISO instant and zone only
into the text, again with no `data.iso`/`data.timeZone`. -/
theorem C1_delete_and_current_time_omit_data :
    (deleteEvent stubProvider delInput).1 = Except.ok
      { content :=
          [⟨"Event deleted successfully: evt42 from calendar \x27work\x27"⟩],
        data := none } ∧
    getCurrentTime 1700000000000 "America/New_York" =
      { content :=
          [⟨"Current time: 2023-11-14T22:13:20.000Z (America/New_York)"⟩],
        data := none } :=
  ⟨rfl, by decide⟩

end GCalMcp
